import Mathlib

/-!
Verification of the GD_ secure-store C API surface declared in
`GD_C_FileSystem.h` (BlackBerry Dynamics).  The header declares a
POSIX-stdio-shaped API whose implementation lives in a prebuilt vendor
binary; every behavioral fact below is therefore modelled from the
documentation comments of the header (the only behavioral source in the
repository), with machine integers as `Nat`/`Int` and byte buffers as
`List Nat`.
-/

/-- Model of the C type `size_t`, the underlying type of both handle
typedefs in the header. -/
abbrev size_t : Type := Nat

/-- From the header, line 20: `typedef size_t GD_FILE;`. -/
abbrev GD_FILE : Type := size_t

/-- From the header, line 25: `typedef size_t GD_DIR;`. -/
abbrev GD_DIR : Type := size_t

/-- Modelled from the spec: the access modes accepted by `GD_fopen`
("w", "r", "a", each optionally with the "+" qualifier; the "b" and "t"
qualifiers aren't supported). -/
inductive AccessMode where
  | read
  | write
  | append
  | readPlus
  | writePlus
  | appendPlus
deriving DecidableEq, Repr

/-- Modelled from the spec: parsing of the `mode` string of `GD_fopen` /
`GD_freopen`.  Per the documentation only "r", "w", "a" with an optional
"+" qualifier are accepted; "b" and "t" aren't supported. -/
def parseMode (m : String) : Option AccessMode :=
  if m = "r" then some AccessMode.read
  else if m = "w" then some AccessMode.write
  else if m = "a" then some AccessMode.append
  else if m = "r+" then some AccessMode.readPlus
  else if m = "w+" then some AccessMode.writePlus
  else if m = "a+" then some AccessMode.appendPlus
  else none

/-- A mode string is valid for `GD_fopen` when it parses. -/
def GD_validMode (m : String) : Bool := (parseMode m).isSome

/-- Modelled from the spec: the mode strings accepted by the standard C
`fopen` (C99 7.19.5.3), the function the spec claims `GD_fopen` mirrors
1:1.  This is the comparison definition for the refinement claim; it
follows the standard's words, not the header. -/
def stdModes : List String :=
  ["r", "w", "a", "r+", "w+", "a+",
   "rb", "wb", "ab", "rb+", "r+b", "wb+", "w+b", "ab+", "a+b"]

/-- A mode string is valid for standard C `fopen` when it is in the
standard's mode list. -/
def std_fopen_validMode (m : String) : Bool := decide (m ∈ stdModes)

/-- The secure store: an association list from paths to byte contents.
Modelled from the spec: the store maps logical paths to (decrypted views
of) file contents. -/
abbrev Store : Type := List (String × List Nat)

/-- Look a path up in the store. -/
def Store.lookup : Store → String → Option (List Nat)
  | [], _ => none
  | (k, v) :: rest, key => if k = key then some v else Store.lookup rest key

/-- Remove a path from the store. -/
def Store.erase (s : Store) (key : String) : Store :=
  s.filter (fun kv => decide (kv.1 ≠ key))

/-- Insert or replace a path in the store. -/
def Store.insert (s : Store) (key : String) (v : List Nat) : Store :=
  (key, v) :: Store.erase s key

/-- Stdio buffering-mode constant `_IOFBF` (full buffering). -/
def IOFBF : Int := 0

/-- Stdio buffering-mode constant `_IOLBF` (line buffering). -/
def IOLBF : Int := 1

/-- Stdio buffering-mode constant `_IONBF` (no buffering). -/
def IONBF : Int := 2

/-- Stdio default buffer size constant `BUFSIZ`. -/
def BUFSIZ : Nat := 1024

/-- Modelled from the spec: an open `GD_FILE` stream — the path it is
associated with, the decrypted content, the file position indicator, the
end-of-file and error indicators, the access mode, and the buffering
configuration set by the `GD_setvbuf` family. -/
structure GDFile where
  path : String
  content : List Nat
  pos : Nat
  eofInd : Bool
  errInd : Bool
  mode : AccessMode
  bufMode : Int
  bufSize : Nat
  userBuf : Bool
deriving DecidableEq, Repr

/-- Whether an access mode requires the file to already exist (read
modes do; write and append modes create the file). -/
def requiresExisting : AccessMode → Bool
  | AccessMode.read => true
  | AccessMode.readPlus => true
  | _ => false

/-- Modelled from the spec: `GD_fopen` — opens a file of the secure
store for reading or writing.  Returns `none` (the model of `NULL`) if
the file could not be opened or created: an unsupported mode string, or
a read mode on a path absent from the store.  "w" truncates, "a"
positions at the end, read modes position at the start. -/
def GD_fopen (s : Store) (filename mode : String) : Option GDFile :=
  match parseMode mode with
  | none => none
  | some am =>
    match am with
    | AccessMode.read | AccessMode.readPlus =>
      match Store.lookup s filename with
      | none => none
      | some c =>
        some { path := filename, content := c, pos := 0, eofInd := false,
               errInd := false, mode := am, bufMode := IOFBF,
               bufSize := BUFSIZ, userBuf := false }
    | AccessMode.write | AccessMode.writePlus =>
      some { path := filename, content := [], pos := 0, eofInd := false,
             errInd := false, mode := am, bufMode := IOFBF,
             bufSize := BUFSIZ, userBuf := false }
    | AccessMode.append | AccessMode.appendPlus =>
      let c := (Store.lookup s filename).getD []
      some { path := filename, content := c, pos := c.length, eofInd := false,
             errInd := false, mode := am, bufMode := IOFBF,
             bufSize := BUFSIZ, userBuf := false }

/-- Whether `GD_fopen` can succeed, per its documented failure cases:
the mode must be supported, and read modes require the file to exist. -/
def canOpen (s : Store) (filename mode : String) : Bool :=
  match parseMode mode with
  | none => false
  | some am => !requiresExisting am || (Store.lookup s filename).isSome

/-- Modelled from the spec: `GD_fclose` — closes the stream, flushing
(committing) its content to the store; returns 0 on success. -/
def GD_fclose (s : Store) (f : GDFile) : Int × Store :=
  (0, Store.insert s f.path f.content)

/-- Overwrite `bytes` into `content` starting at `pos`; writing no bytes
leaves the content unchanged, writing past the end zero-fills the gap. -/
def writeAt (content : List Nat) (pos : Nat) (bytes : List Nat) : List Nat :=
  if bytes.isEmpty then content
  else
    content.take pos ++ List.replicate (pos - content.length) 0 ++
      bytes ++ content.drop (pos + bytes.length)

/-- Modelled from the spec: `GD_fwrite ptr size count f` — the
underlying library simply writes `size * count` bytes (taken from the
source buffer `ptr`) to the secure file system at the current position,
returning the number of elements written. -/
def GD_fwrite (ptr : List Nat) (size count : Nat) (f : GDFile) :
    Nat × GDFile :=
  let bytes := ptr.take (size * count)
  (bytes.length / size,
   { f with content := writeAt f.content f.pos bytes,
            pos := f.pos + bytes.length })

/-- Modelled from the spec: `GD_fread size count f` — the underlying
library simply reads `size * count` bytes from the secure file system at
the current position.  Returns the bytes read (the data stored through
the caller's destination pointer), the number of elements read, and the
updated stream; the end-of-file indicator is set when fewer bytes than
requested were available. -/
def GD_fread (size count : Nat) (f : GDFile) :
    List Nat × Nat × GDFile :=
  let n := size * count
  let bytes := (f.content.drop f.pos).take n
  (bytes, bytes.length / size,
   { f with pos := f.pos + bytes.length,
            eofInd := f.eofInd || decide (bytes.length < n) })

/-- Store bytes read by `GD_fread` into the caller's destination buffer:
the buffer's prefix is overwritten by the bytes actually read. -/
def storeBytes (dest src : List Nat) : List Nat :=
  src ++ dest.drop src.length

/-- Modelled from the spec: `GD_clearerr` — resets both the error and
the eof indicators of the stream. -/
def GD_clearerr (f : GDFile) : GDFile :=
  { f with errInd := false, eofInd := false }

/-- Modelled from the spec: `GD_setvbuf` — assigns a buffer, buffering
mode and size to the stream; returns 0 if the buffer is correctly
assigned, nonzero for an invalid mode parameter. -/
def GD_setvbuf (f : GDFile) (buf : Option (List Nat)) (mode : Int)
    (size : Nat) : Int × GDFile :=
  if mode = IOFBF ∨ mode = IOLBF ∨ mode = IONBF then
    (0, { f with bufMode := mode, bufSize := size, userBuf := buf.isSome })
  else (-1, f)

/-- Modelled from the spec: `GD_setbuf` — gives the stream a buffer of
size `BUFSIZ`, fully buffered when a user buffer is supplied and
unbuffered when `buf` is null. -/
def GD_setbuf (f : GDFile) (buf : Option (List Nat)) : GDFile :=
  { f with bufMode := if buf.isSome then IOFBF else IONBF,
           bufSize := BUFSIZ, userBuf := buf.isSome }

/-- Modelled from the spec: `GD_setbuffer` — gives the stream a buffer
of the given size, fully buffered when a user buffer is supplied and
unbuffered when `buf` is null. -/
def GD_setbuffer (f : GDFile) (buf : Option (List Nat)) (size : Nat) :
    GDFile :=
  { f with bufMode := if buf.isSome then IOFBF else IONBF,
           bufSize := size, userBuf := buf.isSome }

/-- Modelled from the spec: `GD_remove` — deletes the file at the path;
returns 0 if successful, -1 otherwise. -/
def GD_remove (s : Store) (filename : String) : Int × Store :=
  if (Store.lookup s filename).isSome then (0, Store.erase s filename)
  else (-1, s)

/-- Modelled from the spec: `GD_stat` — returns information about the
file at a path (modelled as its size); 0 on success, -1 on failure. -/
def GD_stat (s : Store) (path : String) : Int × Option Nat :=
  match Store.lookup s path with
  | some c => (0, some c.length)
  | none => (-1, none)

/-- Modelled from the spec: the documented return contract of
`GD_rename` — "If the file is successfully renamed, a zero value is
returned.  On failure, a nonzero value is returned." -/
def GD_rename_contract (success : Bool) (r : Int) : Prop :=
  if success then r = 0 else r ≠ 0

/-- Candidate temporary names tried by `GD_tmpnam`: one more candidate
than there are names in use. -/
def tmpCandidates (used : List String) : List String :=
  (List.range (used.length + 1)).map (fun i => "tmp" ++ toString i)

/-- Modelled from the spec: `GD_tmpnam` — generates a unique file name,
or `none` (the model of `NULL`) if it cannot create a unique filename.
The `str` argument only selects which array the C result points into and
does not affect the generated name. -/
def GD_tmpnam (used : List String) (str : Option String) : Option String :=
  (tmpCandidates used).find? (fun c => !(used.contains c))

/-- Modelled from the spec: a directory of the secure store — its
entries and its permission bits. -/
structure DirInfo where
  entries : List String
  perms : Nat
deriving DecidableEq, Repr

/-- The directory tree of the secure store: an association list from
directory paths to directory information. -/
abbrev DirStore : Type := List (String × DirInfo)

/-- Look a directory path up in the directory store. -/
def DirStore.lookup : DirStore → String → Option DirInfo
  | [], _ => none
  | (k, v) :: rest, key => if k = key then some v else DirStore.lookup rest key

/-- Modelled from the spec: `GD_mkdir` — creates the directory at the
path.  The mode parameter is not used and exists only for compatibility;
all created directories are rwx (permission bits 0o777 = 511). -/
def GD_mkdir (dirs : DirStore) (dirname : String) (mode : Nat) :
    Int × DirStore :=
  if (DirStore.lookup dirs dirname).isSome then (-1, dirs)
  else (0, (dirname, { entries := [], perms := 511 }) :: dirs)

/-- Modelled from the spec: an open `GD_DIR` directory-iteration
cursor. -/
structure GDDir where
  dirPath : String
  entries : List String
  dpos : Nat
deriving DecidableEq, Repr

/-- Modelled from the spec: `GD_opendir` — opens the directory named by
`dirname` and associates a directory stream with it; `none` (the model
of `NULL`) is returned if `dirname` cannot be accessed. -/
def GD_opendir (dirs : DirStore) (dirname : String) : Option GDDir :=
  match DirStore.lookup dirs dirname with
  | some info => some { dirPath := dirname, entries := info.entries, dpos := 0 }
  | none => none

/-- Result of `GD_freopen` at the handle level: the returned handle
(`none` models a `NULL` return), the store after the implicit close, and
the updated handle table. -/
structure ReopenResult where
  retH : Option Nat
  storeOut : Store
  tableOut : Nat → Option GDFile

/-- Modelled from the spec: `GD_freopen` with a non-null filename — the
function first attempts to close the file associated with the handle,
then, independently of whether that close succeeded, opens the named
file and associates it with the same handle; the error and eof
indicators are cleared; it returns the pointer passed in on success or
`NULL` on failure. -/
def GD_freopen (store : Store) (tbl : Nat → Option GDFile) (hdl : Nat)
    (filename mode : String) : ReopenResult :=
  match tbl hdl with
  | none => { retH := none, storeOut := store, tableOut := tbl }
  | some f =>
    let store' := (GD_fclose store f).2
    match GD_fopen store' filename mode with
    | some g =>
      { retH := some hdl, storeOut := store',
        tableOut := fun k => if k = hdl then some g else tbl k }
    | none =>
      { retH := none, storeOut := store',
        tableOut := fun k => if k = hdl then none else tbl k }

/-- The properties claimed of `GD_freopen` on handle `hdl` holding
stream `f`: the close is attempted first and unconditionally; a non-null
return is the handle passed in; the return is non-null exactly when the
reopen can succeed; the reopened stream has cleared indicators (as if
`GD_clearerr` was called) and is associated with the new name; other
handles are untouched. -/
def FreopenSpec (store : Store) (tbl : Nat → Option GDFile) (hdl : Nat)
    (filename mode : String) (f : GDFile) : Prop :=
  (GD_freopen store tbl hdl filename mode).storeOut
      = Store.insert store f.path f.content
  ∧ (∀ h', (GD_freopen store tbl hdl filename mode).retH = some h' → h' = hdl)
  ∧ (GD_freopen store tbl hdl filename mode).retH.isSome
      = canOpen (Store.insert store f.path f.content) filename mode
  ∧ (∀ g, (GD_freopen store tbl hdl filename mode).tableOut hdl = some g →
      (GD_freopen store tbl hdl filename mode).retH = some hdl →
      g.errInd = false ∧ g.eofInd = false ∧ g = GD_clearerr g
        ∧ g.path = filename)
  ∧ (∀ k, k ≠ hdl → (GD_freopen store tbl hdl filename mode).tableOut k
      = tbl k)

/-- Kind of a handle: file handle (`GD_FILE*`) or directory handle
(`GD_DIR*`). -/
inductive HKind where
  | file
  | dir
deriving DecidableEq, Repr

/-- Events of a call trace against the GD_ API, at the granularity the
temporal claim needs: an open returning handle `h` (`GD_fopen` /
`GD_opendir`), a handle-based use of `h` (read, write, seek, flush,
tell, position, character and directory-iteration calls), and a close of
`h` (`GD_fclose` / `GD_closedir`). -/
inductive GDEvent where
  | openEv (k : HKind) (h : Nat)
  | useEv (k : HKind) (h : Nat)
  | closeEv (k : HKind) (h : Nat)
deriving DecidableEq, Repr

/-- Modelled from the spec: one step of the legality automaton over call
traces.  `live` is the set of currently open handles: an open returns a
fresh handle and adds it, a handle-based use requires its handle to be
open, a close requires its handle to be open and invalidates it. -/
def gdStep (live : List (HKind × Nat)) : GDEvent → Option (List (HKind × Nat))
  | GDEvent.openEv k h =>
    if (k, h) ∈ live then none else some ((k, h) :: live)
  | GDEvent.useEv k h =>
    if (k, h) ∈ live then some live else none
  | GDEvent.closeEv k h =>
    if (k, h) ∈ live then some (live.filter (fun p => decide (p ≠ (k, h))))
    else none

/-- Run the legality automaton over a trace from a given live set. -/
def gdRun (live : List (HKind × Nat)) : List GDEvent →
    Option (List (HKind × Nat))
  | [] => some live
  | e :: tr =>
    match gdStep live e with
    | some live' => gdRun live' tr
    | none => none

/-- A call trace is legal when the automaton accepts it from the empty
live set. -/
def gdLegal (tr : List GDEvent) : Bool := (gdRun [] tr).isSome

/-- A concrete open stream used by the closed witness statements. -/
def sampleFile : GDFile :=
  { path := "f", content := [1, 2], pos := 0, eofInd := false,
    errInd := false, mode := AccessMode.read, bufMode := 0,
    bufSize := 1024, userBuf := false }

/-- A concrete handle table used by the closed witness statements. -/
def sampleTbl : Nat → Option GDFile :=
  fun k => if k = 1 then some sampleFile else none

/-- Helper: `List.find?` succeeds exactly when some element satisfies
the predicate. -/
theorem find?_isSome_eq_any {α : Type} (p : α → Bool) (l : List α) :
    (l.find? p).isSome = l.any p := by
  induction l with
  | nil => rfl
  | cons x xs ih => by_cases hx : p x <;> simp [List.find?, hx, ih]

/-- Helper: `GD_fopen` succeeds exactly when the documented
preconditions for opening hold. -/
theorem fopen_isSome_eq_canOpen (s : Store) (n m : String) :
    (GD_fopen s n m).isSome = canOpen s n m := by
  unfold GD_fopen canOpen
  cases hp : parseMode m with
  | none => rfl
  | some am =>
    cases am <;> cases hl : Store.lookup s n <;>
      simp [hl, requiresExisting]

/-- Helper: a stream freshly opened by `GD_fopen` has cleared error and
eof indicators and is associated with the requested path. -/
theorem GD_fopen_some_fields (s : Store) (n m : String) (g : GDFile)
    (h : GD_fopen s n m = some g) :
    g.errInd = false ∧ g.eofInd = false ∧ g.path = n := by
  unfold GD_fopen at h
  repeat' split at h
  all_goals simp_all
  all_goals simp [← h]

/-- Helper: overwriting into an empty content at position 0 yields
exactly the written bytes. -/
theorem writeAt_nil_zero (bytes : List Nat) : writeAt [] 0 bytes = bytes := by
  cases bytes <;> simp [writeAt]

/-- C8: the two handle types are not distinct at the language level:
`GD_FILE` and `GD_DIR` are both typedefs of `size_t`, so the public
interface provides no type distinction between file and directory
handles. -/
theorem C8_handle_types_not_distinct :
    GD_FILE = GD_DIR ∧ GD_FILE = size_t ∧ GD_DIR = size_t :=
  ⟨rfl, rfl, rfl⟩

/-- C9: `GD_mkdir` is insensitive to its mode argument — for any two
mode values the result is identical — and a freshly created directory
has the rwx permission bits 0o777 = 511 regardless of the mode. -/
theorem C9_mkdir_mode_insensitive (dirs : DirStore) (dirname : String)
    (m1 m2 : Nat) :
    GD_mkdir dirs dirname m1 = GD_mkdir dirs dirname m2
    ∧ ((DirStore.lookup dirs dirname).isSome = false →
        DirStore.lookup (GD_mkdir dirs dirname m1).2 dirname
          = some { entries := [], perms := 511 }) := by
  constructor
  · rfl
  · intro hfresh
    simp [GD_mkdir, hfresh, DirStore.lookup]

/-- Witness for C9 at the empty directory store, path "d" and modes 0
and 511. -/
theorem C9_mkdir_witness :
    (DirStore.lookup [] "d").isSome = false
    ∧ GD_mkdir [] "d" 0 = GD_mkdir [] "d" 511
    ∧ DirStore.lookup (GD_mkdir [] "d" 0).2 "d"
        = some { entries := [], perms := 511 } :=
  ⟨rfl, (C9_mkdir_mode_insensitive [] "d" 0 511).1,
   (C9_mkdir_mode_insensitive [] "d" 0 511).2 rfl⟩

/-- C7: `GD_setbuf f buf` is, except for the lack of a return value,
exactly `GD_setvbuf f buf (buf ? _IOFBF : _IONBF) BUFSIZ`, and
`GD_setbuffer f buf size` is exactly `setvbuf` with the same mode choice
and the given size. -/
theorem C7_setbuf_equiv (f : GDFile) (buf : Option (List Nat)) (size : Nat) :
    GD_setbuf f buf
      = (GD_setvbuf f buf (if buf.isSome then IOFBF else IONBF) BUFSIZ).2
    ∧ GD_setbuffer f buf size
      = (GD_setvbuf f buf (if buf.isSome then IOFBF else IONBF) size).2 := by
  cases buf <;>
    norm_num [GD_setbuf, GD_setbuffer, GD_setvbuf, IOFBF, IOLBF, IONBF]

/-- C3 counterexample: the documented contract of `GD_rename` only
promises a nonzero value on failure, so the failure return 1 is
permitted by the documentation yet differs from -1; the claim that every
path-based operation returns exactly -1 on failure is therefore not
supported by the header. -/
theorem C3_rename_counterexample :
    GD_rename_contract false 1 ∧ (1 : Int) ≠ -1 := by
  constructor
  · norm_num [GD_rename_contract]
  · norm_num

/-- C3 amended: `GD_remove` and `GD_stat` return 0 on success and -1 on
failure; `GD_rename` returns 0 on success and some nonzero value on
failure (both 1 and -1 are permitted by its documentation); `GD_mkdir`'s
return value is not documented. -/
theorem C3_amended_conventions (s : Store) (p : String) (r : Int) :
    ((GD_remove s p).1 = 0 ∨ (GD_remove s p).1 = -1)
    ∧ ((GD_remove s p).1 = 0 ↔ (Store.lookup s p).isSome = true)
    ∧ ((GD_stat s p).1 = 0 ∨ (GD_stat s p).1 = -1)
    ∧ ((GD_stat s p).1 = 0 ↔ (Store.lookup s p).isSome = true)
    ∧ (GD_rename_contract true r ↔ r = 0)
    ∧ GD_rename_contract false 1 ∧ GD_rename_contract false (-1) := by
  cases hl : Store.lookup s p <;>
    norm_num [GD_remove, GD_stat, GD_rename_contract, hl]

/-- C4: every allocation/open operation signals failure in-band by a
null return: `GD_fopen` is null exactly when the documented open
preconditions fail, `GD_opendir` is null exactly when the directory
cannot be found, and `GD_tmpnam` is null exactly when no unique fresh
name can be produced. -/
theorem C4_null_signalling (s : Store) (n m : String) (dirs : DirStore)
    (d : String) (used : List String) (str : Option String) :
    (GD_fopen s n m).isSome = canOpen s n m
    ∧ (GD_opendir dirs d).isSome = (DirStore.lookup dirs d).isSome
    ∧ (GD_tmpnam used str).isSome
        = (tmpCandidates used).any (fun c => !(used.contains c)) := by
  refine ⟨fopen_isSome_eq_canOpen s n m, ?_, ?_⟩
  · cases hl : DirStore.lookup dirs d <;> simp [GD_opendir, hl]
  · exact find?_isSome_eq_any _ _

/-- C1 counterexample: the standard C `fopen` accepts the mode "rb",
but `GD_fopen` does not (the header states the "b" qualifier is not
supported), so the GD_ API is not a 1:1 behavioral mirror of the
standard functions. -/
theorem C1_mode_grammar_counterexample :
    GD_validMode "rb" = false ∧ std_fopen_validMode "rb" = true := by
  constructor <;> decide

/-- C1 amended: each GD_ operation mirrors its standard C counterpart
on the secure store, except that `GD_fopen`/`GD_freopen` do not support
the standard "b" (and "t") mode qualifiers — on mode strings without
them the two mode grammars agree — and `GD_mkdir` ignores its mode
argument. -/
theorem C1_amended_mirror (m : String) :
    ('b' ∉ m.data → 't' ∉ m.data → GD_validMode m = std_fopen_validMode m)
    ∧ (∀ (dirs : DirStore) (d : String) (m1 m2 : Nat),
        GD_mkdir dirs d m1 = GD_mkdir dirs d m2) := by
  constructor
  · intro hb ht
    rcases eq_or_ne m "r" with h1 | h1
    · subst h1; decide
    rcases eq_or_ne m "w" with h2 | h2
    · subst h2; decide
    rcases eq_or_ne m "a" with h3 | h3
    · subst h3; decide
    rcases eq_or_ne m "r+" with h4 | h4
    · subst h4; decide
    rcases eq_or_ne m "w+" with h5 | h5
    · subst h5; decide
    rcases eq_or_ne m "a+" with h6 | h6
    · subst h6; decide
    rcases eq_or_ne m "rb" with h7 | h7
    · subst h7; exact absurd (by decide) hb
    rcases eq_or_ne m "wb" with h8 | h8
    · subst h8; exact absurd (by decide) hb
    rcases eq_or_ne m "ab" with h9 | h9
    · subst h9; exact absurd (by decide) hb
    rcases eq_or_ne m "rb+" with h10 | h10
    · subst h10; exact absurd (by decide) hb
    rcases eq_or_ne m "r+b" with h11 | h11
    · subst h11; exact absurd (by decide) hb
    rcases eq_or_ne m "wb+" with h12 | h12
    · subst h12; exact absurd (by decide) hb
    rcases eq_or_ne m "w+b" with h13 | h13
    · subst h13; exact absurd (by decide) hb
    rcases eq_or_ne m "ab+" with h14 | h14
    · subst h14; exact absurd (by decide) hb
    rcases eq_or_ne m "a+b" with h15 | h15
    · subst h15; exact absurd (by decide) hb
    simp [GD_validMode, parseMode, std_fopen_validMode, stdModes,
      h1, h2, h3, h4, h5, h6, h7, h8, h9, h10, h11, h12, h13, h14, h15]
  · intro dirs d m1 m2; rfl

/-- Witness for C1's amended theorem at the mode string "r+", which has
no "b" or "t" qualifier. -/
theorem C1_amended_witness :
    ('b' ∉ "r+".data ∧ 't' ∉ "r+".data)
    ∧ GD_validMode "r+" = std_fopen_validMode "r+" :=
  ⟨by decide, (C1_amended_mirror "r+").1 (by decide) (by decide)⟩

/-- C2: for every store, path and byte sequence of length N, opening
for writing, writing the N bytes, closing, reopening for reading and
reading N bytes returns exactly the same N bytes — the
write-then-read round trip through the secure store is the identity on
the data. -/
theorem C2_write_read_roundtrip (s : Store) (p : String) (d : List Nat) :
    ∃ f0 f1 f2,
      GD_fopen s p "w" = some f0
      ∧ GD_fwrite d 1 d.length f0 = (d.length, f1)
      ∧ GD_fopen (GD_fclose s f1).2 p "r" = some f2
      ∧ (GD_fread 1 d.length f2).1 = d := by
  refine ⟨{ path := p, content := [], pos := 0, eofInd := false,
            errInd := false, mode := AccessMode.write, bufMode := IOFBF,
            bufSize := BUFSIZ, userBuf := false },
          { path := p, content := d, pos := d.length, eofInd := false,
            errInd := false, mode := AccessMode.write, bufMode := IOFBF,
            bufSize := BUFSIZ, userBuf := false },
          { path := p, content := d, pos := 0, eofInd := false,
            errInd := false, mode := AccessMode.read, bufMode := IOFBF,
            bufSize := BUFSIZ, userBuf := false },
          ?_, ?_, ?_, ?_⟩
  · rfl
  · simp [GD_fwrite, writeAt_nil_zero]
  · simp [GD_fclose, GD_fopen, parseMode, Store.insert, Store.lookup]
  · simp [GD_fread]

/-- C6: calling `GD_fread` with size or count equal to zero returns
zero and leaves the stream (position, eof and error indicators) and the
destination buffer unchanged; likewise `GD_fwrite` with size or count
zero returns zero and leaves the stream, in particular its error
indicator, unchanged. -/
theorem C6_zero_size_noop (f : GDFile) (ptr dest : List Nat)
    (size count : Nat) (h : size = 0 ∨ count = 0) :
    GD_fread size count f = ([], 0, f)
    ∧ storeBytes dest (GD_fread size count f).1 = dest
    ∧ GD_fwrite ptr size count f = (0, f) := by
  have hn : size * count = 0 := by rcases h with h | h <;> simp [h]
  refine ⟨?_, ?_, ?_⟩ <;>
    simp [GD_fread, GD_fwrite, storeBytes, writeAt, hn]

/-- Witness for C6 at size 0, count 3, a concrete stream and concrete
buffers. -/
theorem C6_zero_size_witness :
    ((0 : Nat) = 0 ∨ (3 : Nat) = 0)
    ∧ (GD_fread 0 3 sampleFile = ([], 0, sampleFile)
       ∧ storeBytes [9, 9] (GD_fread 0 3 sampleFile).1 = [9, 9]
       ∧ GD_fwrite [5] 0 3 sampleFile = (0, sampleFile)) :=
  ⟨Or.inl rfl, C6_zero_size_noop sampleFile [5] [9, 9] 0 3 (Or.inl rfl)⟩

/-- Helper: running the legality automaton over an appended trace is
running it over the pieces in sequence. -/
theorem gdRun_append (xs ys : List GDEvent) :
    ∀ live, gdRun live (xs ++ ys)
      = (gdRun live xs).bind (fun l => gdRun l ys) := by
  induction xs with
  | nil => intro live; rfl
  | cons e xs ih =>
    intro live
    cases hstep : gdStep live e <;> simp [gdRun, hstep, ih]

/-- Helper: any handle live after a legal trace was opened in it, with
no close of that handle afterwards. -/
theorem live_has_open_event (pre : List GDEvent) :
    ∀ (live : List (HKind × Nat)) (k : HKind) (h : Nat),
      gdRun [] pre = some live → (k, h) ∈ live →
      ∃ p1 p2, pre = p1 ++ GDEvent.openEv k h :: p2
        ∧ GDEvent.closeEv k h ∉ p2 := by
  induction pre using List.reverseRecOn with
  | nil =>
    intro live k h hrun hmem
    simp [gdRun] at hrun
    subst hrun
    simp at hmem
  | append_singleton xs e ih =>
    intro live k h hrun hmem
    rw [gdRun_append] at hrun
    cases hx : gdRun [] xs with
    | none => rw [hx] at hrun; simp at hrun
    | some l =>
      rw [hx] at hrun
      simp only [Option.some_bind] at hrun
      cases e with
      | openEv k' h' =>
        by_cases hin : (k', h') ∈ l
        · simp [gdRun, gdStep, hin] at hrun
        · simp [gdRun, gdStep, hin] at hrun
          subst hrun
          rcases List.mem_cons.mp hmem with heq | hmem'
          · have hk : k = k' ∧ h = h' := by
              simpa [Prod.mk.injEq] using heq
            refine ⟨xs, [], ?_, by simp⟩
            simp [hk.1, hk.2]
          · obtain ⟨p1, p2, hpre, hcl⟩ := ih l k h hx hmem'
            refine ⟨p1, p2 ++ [GDEvent.openEv k' h'], ?_, ?_⟩
            · rw [hpre]; simp
            · simp [hcl]
      | useEv k' h' =>
        by_cases hin : (k', h') ∈ l
        · simp [gdRun, gdStep, hin] at hrun
          subst hrun
          obtain ⟨p1, p2, hpre, hcl⟩ := ih l k h hx hmem
          refine ⟨p1, p2 ++ [GDEvent.useEv k' h'], ?_, ?_⟩
          · rw [hpre]; simp
          · simp [hcl]
        · simp [gdRun, gdStep, hin] at hrun
      | closeEv k' h' =>
        by_cases hin : (k', h') ∈ l
        · simp [gdRun, gdStep, hin] at hrun
          subst hrun
          have hmem0 := List.mem_filter.mp hmem
          obtain ⟨p1, p2, hpre, hcl⟩ := ih l k h hx hmem0.1
          refine ⟨p1, p2 ++ [GDEvent.closeEv k' h'], ?_, ?_⟩
          · rw [hpre]; simp
          · have hne : ¬(k = k' ∧ h = h') := by
              intro hkh
              have hd := hmem0.2
              rw [hkh.1, hkh.2] at hd
              simp at hd
            simp [hcl, GDEvent.closeEv.injEq]
            intro hk hh
            exact hne ⟨hk, hh⟩
        · simp [gdRun, gdStep, hin] at hrun

/-- C5: in every legal call sequence, every handle-based operation on a
handle is preceded by the open operation that returned that handle, with
no close of the handle in between — open precedes all use, and close
invalidates the handle. -/
theorem C5_open_precedes_use (pre post : List GDEvent) (k : HKind) (h : Nat)
    (hleg : gdLegal (pre ++ GDEvent.useEv k h :: post) = true) :
    ∃ p1 p2, pre = p1 ++ GDEvent.openEv k h :: p2
      ∧ GDEvent.closeEv k h ∉ p2 := by
  unfold gdLegal at hleg
  rw [gdRun_append] at hleg
  cases hx : gdRun [] pre with
  | none => rw [hx] at hleg; simp at hleg
  | some l =>
    rw [hx] at hleg
    simp only [Option.some_bind] at hleg
    by_cases hin : (k, h) ∈ l
    · exact live_has_open_event pre l k h hx hin
    · simp [gdRun, gdStep, hin] at hleg

/-- Witness for C5 on the legal trace [open file 1, use file 1]. -/
theorem C5_open_precedes_use_witness :
    gdLegal [GDEvent.openEv HKind.file 1, GDEvent.useEv HKind.file 1] = true
    ∧ ∃ p1 p2, [GDEvent.openEv HKind.file 1]
        = p1 ++ GDEvent.openEv HKind.file 1 :: p2
        ∧ GDEvent.closeEv HKind.file 1 ∉ p2 :=
  ⟨by decide,
   C5_open_precedes_use [GDEvent.openEv HKind.file 1] [] HKind.file 1
     (by decide)⟩

/-- C10: `GD_freopen` with a non-null filename first attempts to close
the file associated with the handle and, independently of whether that
close succeeded, opens the named file and associates it with the same
handle; after a successful reopen the error and eof indicators are
cleared (as if `GD_clearerr` was called); it returns the handle passed
in on success and null on failure. -/
theorem C10_freopen_contract (store : Store) (tbl : Nat → Option GDFile)
    (hdl : Nat) (filename mode : String) (f : GDFile)
    (htbl : tbl hdl = some f) :
    FreopenSpec store tbl hdl filename mode f := by
  unfold FreopenSpec GD_freopen
  rw [htbl]
  have hclose : (GD_fclose store f).2 = Store.insert store f.path f.content :=
    rfl
  cases hg : GD_fopen (GD_fclose store f).2 filename mode with
  | none =>
    simp only [hg]
    refine ⟨hclose, by simp, ?_, by simp, ?_⟩
    · have := fopen_isSome_eq_canOpen (GD_fclose store f).2 filename mode
      rw [hg] at this
      rw [← hclose, ← this]
      rfl
    · intro kk hk
      simp [hk]
  | some g =>
    simp only [hg]
    have hfields := GD_fopen_some_fields _ _ _ _ hg
    refine ⟨hclose, ?_, ?_, ?_, ?_⟩
    · intro h' hh'
      simpa using hh'.symm
    · have := fopen_isSome_eq_canOpen (GD_fclose store f).2 filename mode
      rw [hg] at this
      rw [← hclose, ← this]
      rfl
    · intro g' hg' _
      have hgg : g = g' := by simpa using hg'
      subst hgg
      refine ⟨hfields.1, hfields.2.1, ?_, hfields.2.2⟩
      cases g with
      | mk path content pos eofInd errInd md bufMode bufSize userBuf =>
        have he : errInd = false := hfields.1
        have hf : eofInd = false := hfields.2.1
        subst he hf
        rfl
    · intro kk hk
      simp [hk]

/-- Witness for C10 at handle 1 of the sample table, reopening it onto
path "n" in mode "w" over the empty store. -/
theorem C10_freopen_witness :
    sampleTbl 1 = some sampleFile
    ∧ FreopenSpec [] sampleTbl 1 "n" "w" sampleFile :=
  ⟨rfl, C10_freopen_contract [] sampleTbl 1 "n" "w" sampleFile rfl⟩
